import Mathlib

/-!
Verification of the Amazon Easy Nav extension's link-configuration model.

The development shallowly embeds the two entry points that share the
persisted link configuration:

* the injector content script `arin.js` (`addAnchorToNav`), which reads the
  stored link list, falls back to built-in defaults when storage is absent
  or empty, filters to enabled links with usable `name`/`url`, and inserts
  them at the front of the host page's navigation container; and
* the options page script (`loadLinks`, `renderLinkItem`,
  `autoSaveAllLinks`, `handleAddLink` and the list-container click
  listener), which renders an editable list and rewrites the whole stored
  array on every mutation.

Storage values are modelled as `Option (List LinkEntry)` where `none`
stands for an absent or non-array value, mirroring the JavaScript checks
`!Array.isArray(x)` and `x && Array.isArray(x)`.  JavaScript objects with
possibly-missing fields become structures with `Option` fields; the DOM
list the options page maintains becomes `List DisplayItem`, each item
carrying the `data-*` attributes, checkbox and remove-button state that
`renderLinkItem` installs on an `<li>`.
-/

/-- A stored link record (`{ type, id, name, url, enabled, originalIndex }`).
Every field may be absent in raw storage, so each is an `Option`. -/
structure LinkEntry where
  type : Option String
  id : Option String
  name : Option String
  url : Option String
  enabled : Option Bool
  originalIndex : Option Nat
deriving DecidableEq, Repr

/-- JavaScript truthiness of a possibly-missing string field:
`undefined` and the empty string are falsy, every other string is truthy. -/
def jsTruthy : Option String → Bool
  | some s => s ≠ ""
  | none => false

/-- The default link set hard-coded in `arin.js` (used when storage is
absent, not an array, or empty). -/
def arinDefaultLinks : List LinkEntry :=
  [ { type := some "predefined", id := some "returns", name := some "Returns",
      url := some "/spr/returns/history", enabled := some true, originalIndex := some 0 },
    { type := some "predefined", id := some "support", name := some "Support Call",
      url := some "/gp/help/customer/express/c2c/popup.html", enabled := some true,
      originalIndex := some 1 } ]

/-- `DEFAULT_PREDEFINED_LINKS` from the options script (textually the same
two records as the `arin.js` defaults). -/
def DEFAULT_PREDEFINED_LINKS : List LinkEntry := arinDefaultLinks

/-- The data `arin.js` pushes onto `navLinksToAdd` for one surviving link:
`{ href, textContent, className }`. -/
structure NavLink where
  href : String
  textContent : String
  className : String
deriving DecidableEq, Repr

/-- The `li.nav-li > div.nav-div > a.nav-a` element tree the injector
builds for one link. -/
structure RenderedItem where
  liClassName : String
  listStyleType : String
  divClassName : String
  anchor : NavLink
  anchorTabIndex : Nat
deriving DecidableEq, Repr

/-- A child of the host navigation container: either a pre-existing child
of the Amazon page (opaque to this system) or an `<li>` the injector
inserted. -/
inductive NavChild
  | hostChild (tag : Nat)
  | injectedChild (item : RenderedItem)
deriving DecidableEq, Repr

/-- The slice of the host page the injector touches: the navigation
container located by `#nav-xshop > ul.nav-ul`, `none` when the selector
matches nothing. -/
structure Dom where
  nav : Option (List NavChild)
deriving DecidableEq, Repr

/-- Console output of the injector, by call site. -/
inductive LogEvent
  | warnMissingField (link : LinkEntry)
  | errorNavNotFound
  | infoNoActiveLinks
  | errorSavingDefaults (msg : String)
  | infoDefaultsSaved
deriving DecidableEq, Repr

/-- What one run of `addAnchorToNav` produces: the final DOM, the storage
write it issues (if any), and its console logs. -/
structure InjectorResult where
  dom : Dom
  storageWrite : Option (List LinkEntry)
  logs : List LogEvent
deriving DecidableEq, Repr

/-- The body of the injector's `forEach` filter for one link: kept when
`link.enabled === true` and both `link.url` and `link.name` are truthy. -/
def toNavLink (link : LinkEntry) : Option NavLink :=
  if link.enabled = some true then
    if jsTruthy link.url && jsTruthy link.name then
      some { href := link.url.getD "", textContent := link.name.getD "",
             className := "nav-a" }
    else none
  else none

/-- `navLinksToAdd`: the filtered list the injector will insert. -/
def navLinksToAdd (linksToProcess : List LinkEntry) : List NavLink :=
  linksToProcess.filterMap toNavLink

/-- The `console.warn` events emitted during the same filtering pass, one
per enabled link that is missing `url` or `name`. -/
def filterWarnings (linksToProcess : List LinkEntry) : List LogEvent :=
  linksToProcess.filterMap fun link =>
    if link.enabled = some true && !(jsTruthy link.url && jsTruthy link.name) then
      some (.warnMissingField link)
    else none

/-- Builds the `li.nav-li > div.nav-div > a` tree for one link datum. -/
def mkNavItem (linkData : NavLink) : RenderedItem :=
  { liClassName := "nav-li", listStyleType := "none", divClassName := "nav-div",
    anchor := linkData, anchorTabIndex := 0 }

/-- `[...navLinksToAdd].reverse().forEach(ld => navElement.insertBefore(mk ld, firstChild))`:
folding over the reversed list, consing each new item at the front. -/
def insertReversed (toAdd : List NavLink) (children : List NavChild) : List NavChild :=
  toAdd.reverse.foldl (fun cs linkData => .injectedChild (mkNavItem linkData) :: cs) children

/-- The defaulting step of `addAnchorToNav`: keep a stored array when it is
an array with positive length, otherwise substitute the defaults and set
`mustSaveDefaults`. -/
def linksToProcessOf : Option (List LinkEntry) → List LinkEntry × Bool
  | some stored => if stored.length = 0 then (arinDefaultLinks, true) else (stored, false)
  | none => (arinDefaultLinks, true)

/-- One run of the `chrome.storage.sync.get` callback of `addAnchorToNav`
in `arin.js`, up to (but not including) the completion of the
defaults-save write. -/
def addAnchorToNav (stored : Option (List LinkEntry)) (dom : Dom) : InjectorResult :=
  let lp := linksToProcessOf stored
  let linksToProcess := lp.1
  let mustSaveDefaults := lp.2
  let toAdd := navLinksToAdd linksToProcess
  let warns := filterWarnings linksToProcess
  if 0 < toAdd.length then
    match dom.nav with
    | none =>
        -- `console.error(...); return;` — skips the DOM loop *and* the
        -- mustSaveDefaults block at the bottom of the callback.
        { dom := dom, storageWrite := none, logs := warns ++ [.errorNavNotFound] }
    | some children =>
        { dom := { nav := some (insertReversed toAdd children) },
          storageWrite := if mustSaveDefaults then some linksToProcess else none,
          logs := warns }
  else
    { dom := dom,
      storageWrite := if mustSaveDefaults then some linksToProcess else none,
      logs := warns ++ [.infoNoActiveLinks] }

/-- A full injector run including the `chrome.storage.sync.set` completion
callback: `writeError` is `chrome.runtime.lastError` as seen by that
callback.  The callback only logs; it never touches the DOM. -/
def runInjector (stored : Option (List LinkEntry)) (dom : Dom)
    (writeError : Option String) : InjectorResult :=
  let r := addAnchorToNav stored dom
  match r.storageWrite with
  | none => r
  | some _ =>
      { r with logs := r.logs ++
          [match writeError with
           | some msg => .errorSavingDefaults msg
           | none => .infoDefaultsSaved] }

/-! ## Options page (`options.js`, final version) -/

/-- The state `renderLinkItem` installs on one `li.link-item`:
the `data-linkType`/`data-linkName`/`data-linkUrl` attributes (always
strings), the optional `data-linkId` and `data-originalIndex` attributes
(set only on the predefined branch), the enable/disable checkbox, and
whether a `Remove` button was appended.  `checkbox` is an `Option` because
`autoSaveAllLinks` defensively handles a list item with no checkbox. -/
structure DisplayItem where
  linkType : String
  linkName : String
  linkUrl : String
  linkId : Option String
  originalIndex : Option Nat
  checkbox : Option Bool
  removeButton : Bool
deriving DecidableEq, Repr

/-- Writing a possibly-`undefined` JavaScript string into a `data-*`
attribute coerces `undefined` to the string `"undefined"`. -/
def toDataset : Option String → String
  | some s => s
  | none => "undefined"

/-- `renderLinkItem`: build the `<li>` (as a `DisplayItem`) for one link
record.  `checkbox.checked = linkData.enabled` coerces a missing `enabled`
to `false`; `dataset.linkId = linkData.id || ''` falls back to the empty
string; `originalIndex` is copied only when present; the `Remove` button is
appended only for `type === 'custom'`. -/
def renderLinkItem (linkData : LinkEntry) : DisplayItem :=
  let base : DisplayItem :=
    { linkType := toDataset linkData.type, linkName := toDataset linkData.name,
      linkUrl := toDataset linkData.url, linkId := none, originalIndex := none,
      checkbox := some (linkData.enabled.getD false),
      removeButton := decide (linkData.type = some "custom") }
  if linkData.type = some "predefined" then
    { base with linkId := some (linkData.id.getD ""),
                originalIndex := linkData.originalIndex }
  else base

/-- The backward-compatibility `map` inside `loadLinks`: a `custom` link
whose `enabled` is `undefined` becomes `enabled = true`. -/
def compatEntry (link : LinkEntry) : LinkEntry :=
  if link.type = some "custom" ∧ link.enabled = none then
    { link with enabled := some true }
  else link

/-- `loadLinks`: from the raw storage read, produce the rendered display
list and the `saveDefaultsNeeded` flag.  A stored value that is an array
with positive length is kept (through the compatibility map); anything
else is replaced by a deep copy of `DEFAULT_PREDEFINED_LINKS`. -/
def loadLinks (stored : Option (List LinkEntry)) : List DisplayItem × Bool :=
  match stored with
  | some arr =>
      if 0 < arr.length then
        ((arr.map compatEntry).map renderLinkItem, false)
      else
        (DEFAULT_PREDEFINED_LINKS.map renderLinkItem, true)
  | none => (DEFAULT_PREDEFINED_LINKS.map renderLinkItem, true)

/-- The per-`<li>` body of `autoSaveAllLinks`: read the `data-*`
attributes back, default `enabled` to `true` when no checkbox is found,
and attach `id`/`originalIndex` only for predefined items. -/
def serializeItem (item : DisplayItem) : LinkEntry :=
  let enabled : Bool :=
    match item.checkbox with
    | some checked => checked
    | none => true
  let linkData : LinkEntry :=
    { type := some item.linkType, id := none, name := some item.linkName,
      url := some item.linkUrl, enabled := some enabled, originalIndex := none }
  if item.linkType = "predefined" then
    { linkData with id := item.linkId, originalIndex := item.originalIndex }
  else linkData

/-- `autoSaveAllLinks`, data part: the `newAllUserLinksArray` written under
the storage key, serialized from the current display list in DOM order. -/
def autoSaveAllLinks (display : List DisplayItem) : List LinkEntry :=
  display.map serializeItem

/-- The outcome of one `autoSaveAllLinks` call: the array written and the
status message shown to the user, if any (`(text, isError)`). -/
structure SaveOutcome where
  written : List LinkEntry
  message : Option (String × Bool)
deriving DecidableEq, Repr

/-- The declared default of `autoSaveAllLinks`' `showMessage` parameter:
`function autoSaveAllLinks(showMessage = false)`. -/
def autoSaveShowMessageDefault : Bool := false

/-- `autoSaveAllLinks` including its `chrome.storage.sync.set` completion
callback: a status message is shown only when `showMessage` is true, an
error message on `chrome.runtime.lastError` and a confirmation otherwise
(console logging always happens and is not modelled here). -/
def autoSaveAllLinksRun (showMessage : Bool) (display : List DisplayItem)
    (writeError : Option String) : SaveOutcome :=
  { written := autoSaveAllLinks display,
    message :=
      if showMessage then
        match writeError with
        | some msg => some ("Error saving options: " ++ msg, true)
        | none => some ("Options saved automatically!", false)
      else none }

/-- The SortableJS `onEnd` reorder callback calls `autoSaveAllLinks()`,
relying on the parameter default. -/
def onEndSave (display : List DisplayItem) (writeError : Option String) : SaveOutcome :=
  autoSaveAllLinksRun autoSaveShowMessageDefault display writeError

/-- `handleAddLink` calls `autoSaveAllLinks(false)`. -/
def addLinkSave (display : List DisplayItem) (writeError : Option String) : SaveOutcome :=
  autoSaveAllLinksRun false display writeError

/-- The remove-button branch of the list click listener calls
`autoSaveAllLinks(false)`. -/
def removeSave (display : List DisplayItem) (writeError : Option String) : SaveOutcome :=
  autoSaveAllLinksRun false display writeError

/-- The checkbox-toggle branch of the list click listener calls
`autoSaveAllLinks(false)`. -/
def toggleSave (display : List DisplayItem) (writeError : Option String) : SaveOutcome :=
  autoSaveAllLinksRun false display writeError

/-- The initial default-seeding save inside `loadLinks` calls
`autoSaveAllLinks(false)`. -/
def seedDefaultsSave (display : List DisplayItem) (writeError : Option String) : SaveOutcome :=
  autoSaveAllLinksRun false display writeError

/-- Result of one `handleAddLink` click: the new display list, the storage
write it triggered (if any), whether the blocking `alert` fired, and the
two input fields afterwards. -/
structure AddResult where
  display : List DisplayItem
  saved : Option (List LinkEntry)
  alerted : Bool
  nameField : String
  urlField : String
deriving DecidableEq, Repr

/-- JavaScript `String.prototype.trim`: strip leading and trailing
whitespace.  Defined structurally over the character list so that it
computes by kernel reduction. -/
def jsTrim (s : String) : String :=
  String.mk (((s.data.dropWhile Char.isWhitespace).reverse.dropWhile Char.isWhitespace).reverse)

/-- The `customLinkData` object `handleAddLink` builds from the trimmed
inputs: always `type: "custom"` and `enabled: true`. -/
def customLinkData (name url : String) : LinkEntry :=
  { type := some "custom", id := none, name := some name, url := some url,
    enabled := some true, originalIndex := none }

/-- `handleAddLink`: trim both inputs; on an empty name or url, `alert`
and return with nothing changed; otherwise render the new
`{type: "custom", enabled: true}` entry at the end of the list, auto-save,
and clear the inputs. -/
def handleAddLink (nameInput urlInput : String) (display : List DisplayItem) : AddResult :=
  let name := jsTrim nameInput
  let url := jsTrim urlInput
  if name = "" ∨ url = "" then
    { display := display, saved := none, alerted := true,
      nameField := nameInput, urlField := urlInput }
  else
    let display' := display ++ [renderLinkItem (customLinkData name url)]
    { display := display', saved := some (autoSaveAllLinks display'),
      alerted := false, nameField := "", urlField := "" }

/-- The remove branch of the list click listener, fired on index `i`:
`event.target.closest('li.link-item').remove()` followed by
`autoSaveAllLinks(false)`. -/
def handleRemoveClick (display : List DisplayItem) (i : Nat) :
    List DisplayItem × List LinkEntry :=
  let display' := display.eraseIdx i
  (display', autoSaveAllLinks display')

/-- A display item shaped like the output of `renderLinkItem`: it has a
checkbox, carries `data-linkId` exactly when predefined, carries
`data-originalIndex` only when predefined, and has a `Remove` button
exactly when custom.  Every item the options page itself puts in the list
satisfies this. -/
def DisplayItem.wellShaped (item : DisplayItem) : Prop :=
  item.checkbox.isSome = true ∧
  (item.linkType = "predefined" → item.linkId.isSome = true) ∧
  (item.linkType ≠ "predefined" → item.linkId = none ∧ item.originalIndex = none) ∧
  item.removeButton = decide (item.linkType = "custom")

instance (item : DisplayItem) : Decidable item.wellShaped := by
  unfold DisplayItem.wellShaped
  infer_instance

/-! ## Helper lemmas -/

/-- Claim-side predicate on a stored entry: `enabled == true` and non-empty
`name` and `url` (the filter 4.2 of the spec describes). -/
def enabledValidEntry (e : LinkEntry) : Bool :=
  decide (e.enabled = some true) && jsTruthy e.name && jsTruthy e.url

/-- Claim-side anchor data for one surviving entry. -/
def navLinkOfEntry (e : LinkEntry) : NavLink :=
  { href := e.url.getD "", textContent := e.name.getD "", className := "nav-a" }

theorem toNavLink_eq (e : LinkEntry) :
    toNavLink e = if enabledValidEntry e then some (navLinkOfEntry e) else none := by
  unfold toNavLink enabledValidEntry navLinkOfEntry
  by_cases h1 : e.enabled = some true <;>
    cases hu : jsTruthy e.url <;> cases hn : jsTruthy e.name <;> simp [h1, hu, hn]

theorem navLinksToAdd_eq (l : List LinkEntry) :
    navLinksToAdd l = (l.filter enabledValidEntry).map navLinkOfEntry := by
  induction l with
  | nil => rfl
  | cons a t ih =>
      cases h : enabledValidEntry a <;>
        simp [navLinksToAdd, List.filterMap_cons, List.filter_cons, toNavLink_eq, h] <;>
        simpa [navLinksToAdd] using ih

theorem insertReversed_eq (toAdd : List NavLink) (children : List NavChild) :
    insertReversed toAdd children =
      toAdd.map (fun linkData => NavChild.injectedChild (mkNavItem linkData)) ++ children := by
  induction toAdd with
  | nil => rfl
  | cons a t ih =>
      unfold insertReversed at ih ⊢
      rw [List.reverse_cons, List.foldl_append]
      simp [ih]

theorem serializeItem_enabled (item : DisplayItem) :
    (serializeItem item).enabled = some (item.checkbox.getD true) := by
  unfold serializeItem
  cases h : item.checkbox <;> simp [h] <;> split <;> rfl

theorem renderLinkItem_wellShaped (d : LinkEntry) :
    (renderLinkItem d).wellShaped := by
  unfold renderLinkItem DisplayItem.wellShaped
  by_cases hp : d.type = some "predefined"
  · simp [hp, toDataset]
  · cases ht : d.type with
    | none => simp [ht, toDataset]
    | some s =>
        have hs : s ≠ "predefined" := fun h => hp (by rw [ht, h])
        simp [ht, toDataset, hs]

theorem serialize_render_roundtrip (item : DisplayItem) (h : item.wellShaped) :
    renderLinkItem (compatEntry (serializeItem item)) = item := by
  obtain ⟨lt, ln, lu, lid, loi, lcb, lrb⟩ := item
  simp only [DisplayItem.wellShaped] at h
  obtain ⟨hcb, hpre, hnpre, hrb⟩ := h
  obtain ⟨b, rfl⟩ := Option.isSome_iff_exists.mp hcb
  by_cases hp : lt = "predefined"
  · obtain ⟨s, hs⟩ := Option.isSome_iff_exists.mp (hpre hp)
    subst hp
    simp [serializeItem, compatEntry, renderLinkItem, toDataset, hs, hrb]
  · obtain ⟨hid, hoi⟩ := hnpre hp
    subst hid hoi
    simp [serializeItem, compatEntry, renderLinkItem, toDataset, hp, hrb]

theorem serializeItem_render_custom (n u : String) :
    serializeItem (renderLinkItem (customLinkData n u)) = customLinkData n u := by
  simp [serializeItem, renderLinkItem, customLinkData, toDataset]

/-! ## Claim theorems -/

/-- C1: for every stored Configuration with at least one entry that is
enabled and has non-empty `name` and `url`, and a present navigation
container, the Injector renders exactly the enabled, valid-field subset of
the Configuration, in Configuration order, as a prefix inserted before the
container's previously-first child (the reverse-iteration insertion
preserves forward order). -/
theorem C1_injector_renders_enabled_valid_subset_in_order
    (stored : List LinkEntry) (children : List NavChild)
    (h : ∃ e ∈ stored, enabledValidEntry e = true) :
    (addAnchorToNav (some stored) { nav := some children }).dom.nav =
      some ((stored.filter enabledValidEntry).map
              (fun e => NavChild.injectedChild (mkNavItem (navLinkOfEntry e))) ++ children) := by
  obtain ⟨e, he, hv⟩ := h
  have hne : ¬stored.length = 0 := by
    simpa [List.length_eq_zero] using List.ne_nil_of_mem he
  have hmem : e ∈ stored.filter enabledValidEntry := List.mem_filter.mpr ⟨he, hv⟩
  have hpos : 0 < (navLinksToAdd stored).length := by
    rw [navLinksToAdd_eq]
    simpa using List.length_pos.mpr (List.ne_nil_of_mem hmem)
  simp only [addAnchorToNav, linksToProcessOf, if_neg hne, if_pos hpos]
  simp [insertReversed_eq, navLinksToAdd_eq, List.map_map, Function.comp]

/-- Witness for C1 at a one-entry Configuration and a one-child container. -/
theorem C1_witness :
    (∃ e ∈ [customLinkData "Orders" "/orders"], enabledValidEntry e = true) ∧
    (addAnchorToNav (some [customLinkData "Orders" "/orders"])
        { nav := some [NavChild.hostChild 0] }).dom.nav =
      some (([customLinkData "Orders" "/orders"].filter enabledValidEntry).map
              (fun e => NavChild.injectedChild (mkNavItem (navLinkOfEntry e))) ++
            [NavChild.hostChild 0]) :=
  ⟨by decide,
   C1_injector_renders_enabled_valid_subset_in_order
     [customLinkData "Orders" "/orders"] [NavChild.hostChild 0] (by decide)⟩

/-- C2: whenever the raw storage result is not an array or is empty, both
the Injector (`linksToProcessOf`) and the Options Manager (`loadLinks`)
substitute exactly the two built-in defaults — "Returns" at
`/spr/returns/history` and "Support Call" at
`/gp/help/customer/express/c2c/popup.html`, both predefined and enabled —
and raise the flag that the defaults must be written back to storage. -/
theorem C2_defaults_substituted_and_flagged
    (stored : Option (List LinkEntry))
    (h : stored = none ∨ stored = some []) :
    linksToProcessOf stored =
      ([ { type := some "predefined", id := some "returns", name := some "Returns",
           url := some "/spr/returns/history", enabled := some true, originalIndex := some 0 },
         { type := some "predefined", id := some "support", name := some "Support Call",
           url := some "/gp/help/customer/express/c2c/popup.html", enabled := some true,
           originalIndex := some 1 } ], true) ∧
    loadLinks stored =
      ([ renderLinkItem
           { type := some "predefined", id := some "returns", name := some "Returns",
             url := some "/spr/returns/history", enabled := some true, originalIndex := some 0 },
         renderLinkItem
           { type := some "predefined", id := some "support", name := some "Support Call",
             url := some "/gp/help/customer/express/c2c/popup.html", enabled := some true,
             originalIndex := some 1 } ], true) := by
  rcases h with rfl | rfl <;> exact ⟨rfl, rfl⟩

/-- Witness for C2 at an absent storage value. -/
theorem C2_witness :
    ((none : Option (List LinkEntry)) = none ∨ (none : Option (List LinkEntry)) = some []) ∧
    linksToProcessOf none =
      ([ { type := some "predefined", id := some "returns", name := some "Returns",
           url := some "/spr/returns/history", enabled := some true, originalIndex := some 0 },
         { type := some "predefined", id := some "support", name := some "Support Call",
           url := some "/gp/help/customer/express/c2c/popup.html", enabled := some true,
           originalIndex := some 1 } ], true) ∧
    loadLinks none =
      ([ renderLinkItem
           { type := some "predefined", id := some "returns", name := some "Returns",
             url := some "/spr/returns/history", enabled := some true, originalIndex := some 0 },
         renderLinkItem
           { type := some "predefined", id := some "support", name := some "Support Call",
             url := some "/gp/help/customer/express/c2c/popup.html", enabled := some true,
             originalIndex := some 1 } ], true) :=
  ⟨Or.inl rfl,
   (C2_defaults_substituted_and_flagged none (Or.inl rfl)).1,
   (C2_defaults_substituted_and_flagged none (Or.inl rfl)).2⟩

/-- C3: saving the full display state (`autoSaveAllLinks`) and loading it
back (`loadLinks`) returns exactly the same list, in the same order, for
every non-empty display state shaped like `renderLinkItem` output — i.e.
the states the Options Manager itself produces. -/
theorem C3_save_then_load_roundtrip
    (display : List DisplayItem) (hne : display ≠ [])
    (hws : ∀ item ∈ display, item.wellShaped) :
    loadLinks (some (autoSaveAllLinks display)) = (display, false) := by
  have hpos : 0 < (autoSaveAllLinks display).length := by
    simpa [autoSaveAllLinks] using List.length_pos.mpr hne
  simp only [loadLinks, if_pos hpos, Prod.mk.injEq]
  refine ⟨?_, trivial⟩
  have hcongr : ∀ item ∈ display,
      renderLinkItem (compatEntry (serializeItem item)) = item :=
    fun item hi => serialize_render_roundtrip item (hws item hi)
  calc ((autoSaveAllLinks display).map compatEntry).map renderLinkItem
      = display.map (fun item => renderLinkItem (compatEntry (serializeItem item))) := by
        simp [autoSaveAllLinks, List.map_map, Function.comp]
    _ = display.map (fun item => item) := List.map_congr_left hcongr
    _ = display := by simp

/-- Witness for C3 at a one-item display state. -/
theorem C3_witness :
    ([({ linkType := "custom", linkName := "X", linkUrl := "/x", linkId := none,
         originalIndex := none, checkbox := some true, removeButton := true } : DisplayItem)] ≠ []) ∧
    (∀ item ∈ [({ linkType := "custom", linkName := "X", linkUrl := "/x", linkId := none,
                  originalIndex := none, checkbox := some true, removeButton := true } : DisplayItem)],
        item.wellShaped) ∧
    loadLinks (some (autoSaveAllLinks
        [{ linkType := "custom", linkName := "X", linkUrl := "/x", linkId := none,
           originalIndex := none, checkbox := some true, removeButton := true }])) =
      ([{ linkType := "custom", linkName := "X", linkUrl := "/x", linkId := none,
          originalIndex := none, checkbox := some true, removeButton := true }], false) :=
  ⟨by decide, by decide,
   C3_save_then_load_roundtrip
     [{ linkType := "custom", linkName := "X", linkUrl := "/x", linkId := none,
        originalIndex := none, checkbox := some true, removeButton := true }]
     (by decide) (by decide)⟩

/-- C4 counterexample: a stored `custom` entry with no `enabled` field.
The Options Manager shows it checked, but the Injector — which has no
missing-`enabled` compatibility logic and filters on `enabled === true` —
renders nothing, leaving the (empty) navigation container untouched.  The
claim as stated says the entry "is rendered by the Injector". -/
theorem C4_counterexample :
    (addAnchorToNav
        (some [{ type := some "custom", id := none, name := some "Legacy",
                 url := some "/legacy", enabled := none, originalIndex := none }])
        { nav := some [] }).dom.nav = some [] ∧
    ((loadLinks
        (some [{ type := some "custom", id := none, name := some "Legacy",
                 url := some "/legacy", enabled := none, originalIndex := none }])).1.map
      (fun item => item.checkbox)) = [some true] := by
  exact ⟨rfl, rfl⟩

/-- C4 amended: only the Options Manager's `loadLinks` treats a
`custom`-kind entry with missing `enabled` as `enabled = true` (showing it
checked); the Injector applies no such defaulting — an entry whose
`enabled` is missing contributes nothing to the rendered navigation list,
wherever it occurs in the Configuration. -/
theorem C4_options_compat_only_injector_skips
    (e : LinkEntry) (l1 l2 : List LinkEntry)
    (ht : e.type = some "custom") (he : e.enabled = none) :
    compatEntry e = { e with enabled := some true } ∧
    (renderLinkItem (compatEntry e)).checkbox = some true ∧
    navLinksToAdd (l1 ++ e :: l2) = navLinksToAdd (l1 ++ l2) := by
  have hc : compatEntry e = { e with enabled := some true } := by
    simp [compatEntry, ht, he]
  refine ⟨hc, ?_, ?_⟩
  · rw [hc]
    simp [renderLinkItem, ht]
  · simp [navLinksToAdd, List.filterMap_append, List.filterMap_cons, toNavLink, he]

/-- Witness for the amended C4 at a concrete legacy entry. -/
theorem C4_amended_witness :
    compatEntry { type := some "custom", id := none, name := some "Legacy",
                  url := some "/legacy", enabled := none, originalIndex := none } =
      { type := some "custom", id := none, name := some "Legacy",
        url := some "/legacy", enabled := some true, originalIndex := none } ∧
    (renderLinkItem (compatEntry
        { type := some "custom", id := none, name := some "Legacy",
          url := some "/legacy", enabled := none, originalIndex := none })).checkbox = some true ∧
    navLinksToAdd ([] ++ { type := some "custom", id := none, name := some "Legacy",
                           url := some "/legacy", enabled := none,
                           originalIndex := none } :: []) = navLinksToAdd ([] ++ []) :=
  C4_options_compat_only_injector_skips
    { type := some "custom", id := none, name := some "Legacy",
      url := some "/legacy", enabled := none, originalIndex := none }
    [] [] (by decide) (by decide)

/-- C5 counterexample: a drag-reorder save (`onEnd` calls
`autoSaveAllLinks()` with the parameter default) shows no status message,
neither when the storage write fails nor when it succeeds — the claim says
a failure surfaces an error message and a success a confirmation. -/
theorem C5_counterexample :
    (onEndSave [{ linkType := "custom", linkName := "X", linkUrl := "/x", linkId := none,
                  originalIndex := none, checkbox := some true, removeButton := true }]
        (some "QUOTA_BYTES quota exceeded")).message = none ∧
    (onEndSave [{ linkType := "custom", linkName := "X", linkUrl := "/x", linkId := none,
                  originalIndex := none, checkbox := some true, removeButton := true }]
        none).message = none :=
  ⟨rfl, rfl⟩

/-- C5 amended: every save the Options Manager performs is silent.  The
`showMessage` parameter of `autoSaveAllLinks` defaults to `false`
(contradicting its doc comment), `handleAddLink`, the remove branch, the
toggle branch and the default-seeding load all pass `false` explicitly,
and the reorder callback relies on the `false` default — so no mutation
ever surfaces a user-visible error or confirmation message; write failures
are only logged to the console. -/
theorem C5_all_saves_silent
    (display : List DisplayItem) (writeError : Option String) :
    (onEndSave display writeError).message = none ∧
    (addLinkSave display writeError).message = none ∧
    (removeSave display writeError).message = none ∧
    (toggleSave display writeError).message = none ∧
    (seedDefaultsSave display writeError).message = none ∧
    autoSaveShowMessageDefault = false :=
  ⟨rfl, rfl, rfl, rfl, rfl, rfl⟩

/-- C6: when the navigation container is absent and the filtered link list
is non-empty (so the fixed-selector lookup runs and fails), the Injector
logs an error and returns early: the DOM is untouched, no storage write is
issued — in particular substituted defaults are never written back — and
the write-completion callback never runs. -/
theorem C6_nav_missing_aborts_without_writes
    (stored : Option (List LinkEntry)) (writeError : Option String)
    (h : navLinksToAdd (linksToProcessOf stored).1 ≠ []) :
    (addAnchorToNav stored { nav := none }).dom = { nav := none } ∧
    (addAnchorToNav stored { nav := none }).storageWrite = none ∧
    LogEvent.errorNavNotFound ∈ (addAnchorToNav stored { nav := none }).logs ∧
    runInjector stored { nav := none } writeError = addAnchorToNav stored { nav := none } := by
  have hpos : 0 < (navLinksToAdd (linksToProcessOf stored).1).length :=
    List.length_pos.mpr h
  refine ⟨?_, ?_, ?_, ?_⟩ <;>
    simp [addAnchorToNav, runInjector, if_pos hpos]

/-- Witness for C6 with absent storage (defaults substituted, both
renderable) and a page without the navigation container. -/
theorem C6_witness :
    (navLinksToAdd (linksToProcessOf none).1 ≠ []) ∧
    (addAnchorToNav none { nav := none }).dom = { nav := none } ∧
    (addAnchorToNav none { nav := none }).storageWrite = none ∧
    LogEvent.errorNavNotFound ∈ (addAnchorToNav none { nav := none }).logs ∧
    runInjector none { nav := none } (some "boom") = addAnchorToNav none { nav := none } :=
  ⟨by decide,
   (C6_nav_missing_aborts_without_writes none (some "boom") (by decide)).1,
   (C6_nav_missing_aborts_without_writes none (some "boom") (by decide)).2.1,
   (C6_nav_missing_aborts_without_writes none (some "boom") (by decide)).2.2.1,
   (C6_nav_missing_aborts_without_writes none (some "boom") (by decide)).2.2.2⟩

/-- C8: the rendered list item of an entry carries a `Remove` control
exactly when the entry is `custom`-kind, and firing the remove handler on
index `i` (which requires that item to carry the control) removes exactly
that entry from the display and from the persisted sequence, leaving every
other entry and their relative order unchanged. -/
theorem C8_remove_only_custom_removes_exactly_one
    (d : LinkEntry) (display : List DisplayItem) (i : Nat)
    (hi : i < display.length)
    (_hbtn : (display.get ⟨i, hi⟩).removeButton = true) :
    ((renderLinkItem d).removeButton = true ↔ d.type = some "custom") ∧
    (handleRemoveClick display i).1 = display.take i ++ display.drop (i + 1) ∧
    (handleRemoveClick display i).2 =
      (autoSaveAllLinks display).take i ++ (autoSaveAllLinks display).drop (i + 1) := by
  refine ⟨?_, ?_, ?_⟩
  · unfold renderLinkItem
    by_cases hp : d.type = some "predefined" <;> simp [hp]
  · simp [handleRemoveClick, List.eraseIdx_eq_take_drop_succ]
  · simp [handleRemoveClick, autoSaveAllLinks, List.eraseIdx_eq_take_drop_succ,
          List.map_append, List.map_take, List.map_drop]

/-- Witness for C8: removing the first item of a two-item display. -/
theorem C8_witness :
    ((renderLinkItem { type := some "custom", id := none, name := some "X",
                       url := some "/x", enabled := some true,
                       originalIndex := none }).removeButton = true ↔
      ({ type := some "custom", id := none, name := some "X", url := some "/x",
         enabled := some true, originalIndex := none } : LinkEntry).type = some "custom") ∧
    (handleRemoveClick
        [{ linkType := "custom", linkName := "X", linkUrl := "/x", linkId := none,
           originalIndex := none, checkbox := some true, removeButton := true },
         { linkType := "predefined", linkName := "Returns", linkUrl := "/spr/returns/history",
           linkId := some "returns", originalIndex := some 0, checkbox := some true,
           removeButton := false }] 0).1 =
      ([{ linkType := "custom", linkName := "X", linkUrl := "/x", linkId := none,
          originalIndex := none, checkbox := some true, removeButton := true },
        { linkType := "predefined", linkName := "Returns", linkUrl := "/spr/returns/history",
          linkId := some "returns", originalIndex := some 0, checkbox := some true,
          removeButton := false }].take 0 ++
       [{ linkType := "custom", linkName := "X", linkUrl := "/x", linkId := none,
          originalIndex := none, checkbox := some true, removeButton := true },
        { linkType := "predefined", linkName := "Returns", linkUrl := "/spr/returns/history",
          linkId := some "returns", originalIndex := some 0, checkbox := some true,
          removeButton := false }].drop 1) ∧
    (handleRemoveClick
        [{ linkType := "custom", linkName := "X", linkUrl := "/x", linkId := none,
           originalIndex := none, checkbox := some true, removeButton := true },
         { linkType := "predefined", linkName := "Returns", linkUrl := "/spr/returns/history",
           linkId := some "returns", originalIndex := some 0, checkbox := some true,
           removeButton := false }] 0).2 =
      ((autoSaveAllLinks
          [{ linkType := "custom", linkName := "X", linkUrl := "/x", linkId := none,
             originalIndex := none, checkbox := some true, removeButton := true },
           { linkType := "predefined", linkName := "Returns", linkUrl := "/spr/returns/history",
             linkId := some "returns", originalIndex := some 0, checkbox := some true,
             removeButton := false }]).take 0 ++
       (autoSaveAllLinks
          [{ linkType := "custom", linkName := "X", linkUrl := "/x", linkId := none,
             originalIndex := none, checkbox := some true, removeButton := true },
           { linkType := "predefined", linkName := "Returns", linkUrl := "/spr/returns/history",
             linkId := some "returns", originalIndex := some 0, checkbox := some true,
             removeButton := false }]).drop 1) :=
  C8_remove_only_custom_removes_exactly_one
    { type := some "custom", id := none, name := some "X", url := some "/x",
      enabled := some true, originalIndex := none }
    [{ linkType := "custom", linkName := "X", linkUrl := "/x", linkId := none,
       originalIndex := none, checkbox := some true, removeButton := true },
     { linkType := "predefined", linkName := "Returns", linkUrl := "/spr/returns/history",
       linkId := some "returns", originalIndex := some 0, checkbox := some true,
       removeButton := false }] 0 (by decide) (by decide)

/-- C7: an add-link action with non-empty trimmed name and url appends a
`custom`, `enabled: true` entry at the end of the display order, saves,
clears the inputs, and after the save the persisted Configuration's last
entry is exactly that custom entry (and reloading shows it last); an
add-link action with an empty trimmed name or url raises the blocking
`alert` and changes nothing. -/
theorem C7_add_appends_custom_entry_last
    (nameInput urlInput : String) (display : List DisplayItem) :
    (jsTrim nameInput ≠ "" → jsTrim urlInput ≠ "" →
      handleAddLink nameInput urlInput display =
        { display := display ++ [renderLinkItem (customLinkData (jsTrim nameInput) (jsTrim urlInput))],
          saved := some (autoSaveAllLinks
            (display ++ [renderLinkItem (customLinkData (jsTrim nameInput) (jsTrim urlInput))])),
          alerted := false, nameField := "", urlField := "" } ∧
      (autoSaveAllLinks (handleAddLink nameInput urlInput display).display).getLast? =
        some (customLinkData (jsTrim nameInput) (jsTrim urlInput)) ∧
      (loadLinks (some (autoSaveAllLinks
          (handleAddLink nameInput urlInput display).display))).1.getLast? =
        some (renderLinkItem (customLinkData (jsTrim nameInput) (jsTrim urlInput)))) ∧
    ((jsTrim nameInput = "" ∨ jsTrim urlInput = "") →
      handleAddLink nameInput urlInput display =
        { display := display, saved := none, alerted := true,
          nameField := nameInput, urlField := urlInput }) := by
  constructor
  · intro hn hu
    have hcond : ¬(jsTrim nameInput = "" ∨ jsTrim urlInput = "") := by
      rintro (h | h)
      · exact hn h
      · exact hu h
    have hadd : handleAddLink nameInput urlInput display =
        { display := display ++ [renderLinkItem (customLinkData (jsTrim nameInput) (jsTrim urlInput))],
          saved := some (autoSaveAllLinks
            (display ++ [renderLinkItem (customLinkData (jsTrim nameInput) (jsTrim urlInput))])),
          alerted := false, nameField := "", urlField := "" } := by
      simp only [handleAddLink]
      rw [if_neg hcond]
    have hsplit : autoSaveAllLinks
        (display ++ [renderLinkItem (customLinkData (jsTrim nameInput) (jsTrim urlInput))]) =
        autoSaveAllLinks display ++
          [serializeItem (renderLinkItem (customLinkData (jsTrim nameInput) (jsTrim urlInput)))] := by
      simp [autoSaveAllLinks]
    refine ⟨hadd, ?_, ?_⟩
    · rw [hadd]
      rw [hsplit, serializeItem_render_custom, List.getLast?_concat]
    · rw [hadd]
      have hpos : 0 < (autoSaveAllLinks
          (display ++ [renderLinkItem (customLinkData (jsTrim nameInput) (jsTrim urlInput))])).length := by
        simp [autoSaveAllLinks]
      simp only [loadLinks, if_pos hpos]
      rw [hsplit, List.map_append, List.map_append]
      simp only [List.map_cons, List.map_nil]
      rw [List.getLast?_concat,
          serialize_render_roundtrip _
            (renderLinkItem_wellShaped (customLinkData (jsTrim nameInput) (jsTrim urlInput)))]
  · intro hcond
    simp only [handleAddLink]
    rw [if_pos hcond]

/-- Witness for C7: adding "Orders" / "/orders" to an empty display makes
it the last saved entry; an empty name is rejected unchanged. -/
theorem C7_witness :
    (autoSaveAllLinks (handleAddLink "Orders" "/orders" []).display).getLast? =
      some (customLinkData (jsTrim "Orders") (jsTrim "/orders")) ∧
    handleAddLink "" "/x" [] =
      { display := [], saved := none, alerted := true, nameField := "", urlField := "/x" } :=
  ⟨((C7_add_appends_custom_entry_last "Orders" "/orders" []).1
      (by decide) (by decide)).2.1,
   (C7_add_appends_custom_entry_last "" "/x" []).2 (Or.inl (by decide))⟩

/-- On a run where the defaults are substituted, the injector renders the
two default links and issues the write-back of the defaults. -/
theorem addAnchorToNav_defaults (stored : Option (List LinkEntry))
    (h : linksToProcessOf stored = (arinDefaultLinks, true)) (children : List NavChild) :
    addAnchorToNav stored { nav := some children } =
      { dom := { nav := some (insertReversed (navLinksToAdd arinDefaultLinks) children) },
        storageWrite := some arinDefaultLinks, logs := [] } := by
  have hpos : 0 < (navLinksToAdd arinDefaultLinks).length := by decide
  have hw : filterWarnings arinDefaultLinks = [] := by decide
  simp [addAnchorToNav, h, hpos, hw]

/-- C9: when defaults were substituted (storage absent or empty) and the
navigation container is present, the injector writes the defaults back to
storage after rendering; a failing write is logged by the completion
callback and the rendered DOM is the same as on a successful write —
rendering and persistence are independent. -/
theorem C9_defaults_written_back_independent_of_dom
    (stored : Option (List LinkEntry)) (children : List NavChild) (errMsg : String)
    (h : stored = none ∨ stored = some []) :
    (addAnchorToNav stored { nav := some children }).storageWrite = some arinDefaultLinks ∧
    (runInjector stored { nav := some children } (some errMsg)).dom.nav =
      some (insertReversed (navLinksToAdd arinDefaultLinks) children) ∧
    (runInjector stored { nav := some children } (some errMsg)).dom =
      (runInjector stored { nav := some children } none).dom ∧
    LogEvent.errorSavingDefaults errMsg ∈
      (runInjector stored { nav := some children } (some errMsg)).logs := by
  have hlp : linksToProcessOf stored = (arinDefaultLinks, true) := by
    rcases h with rfl | rfl <;> rfl
  have hadd := addAnchorToNav_defaults stored hlp children
  refine ⟨by rw [hadd], ?_, ?_, ?_⟩ <;> simp [runInjector, hadd]

/-- Witness for C9 with absent storage, an empty container, and a failing
write. -/
theorem C9_witness :
    ((none : Option (List LinkEntry)) = none ∨ (none : Option (List LinkEntry)) = some []) ∧
    (addAnchorToNav none { nav := some [] }).storageWrite = some arinDefaultLinks ∧
    (runInjector none { nav := some [] } (some "boom")).dom.nav =
      some (insertReversed (navLinksToAdd arinDefaultLinks) []) ∧
    (runInjector none { nav := some [] } (some "boom")).dom =
      (runInjector none { nav := some [] } none).dom ∧
    LogEvent.errorSavingDefaults "boom" ∈ (runInjector none { nav := some [] } (some "boom")).logs :=
  ⟨Or.inl rfl,
   (C9_defaults_written_back_independent_of_dom none [] "boom" (Or.inl rfl)).1,
   (C9_defaults_written_back_independent_of_dom none [] "boom" (Or.inl rfl)).2.1,
   (C9_defaults_written_back_independent_of_dom none [] "boom" (Or.inl rfl)).2.2.1,
   (C9_defaults_written_back_independent_of_dom none [] "boom" (Or.inl rfl)).2.2.2⟩

/-- C10: every entry `autoSaveAllLinks` writes has an explicitly defined
boolean `enabled` field; a list item with no checkbox is saved with
`enabled = true`; consequently the load-time missing-`enabled`
compatibility map is the identity on anything this save has written. -/
theorem C10_saved_entries_always_have_enabled
    (display : List DisplayItem) :
    (∀ e ∈ autoSaveAllLinks display, ∃ b : Bool, e.enabled = some b) ∧
    (∀ item : DisplayItem, item.checkbox = none → (serializeItem item).enabled = some true) ∧
    (∀ item : DisplayItem, compatEntry (serializeItem item) = serializeItem item) := by
  refine ⟨?_, ?_, ?_⟩
  · intro e he
    simp only [autoSaveAllLinks, List.mem_map] at he
    obtain ⟨item, _, rfl⟩ := he
    exact ⟨item.checkbox.getD true, serializeItem_enabled item⟩
  · intro item h
    rw [serializeItem_enabled, h]
    rfl
  · intro item
    simp [compatEntry, serializeItem_enabled]

/-- Witness for C10 at concrete display items, including one with no
checkbox. -/
theorem C10_witness :
    (∃ b : Bool,
      (serializeItem
        { linkType := "custom", linkName := "X", linkUrl := "/x", linkId := none,
          originalIndex := none, checkbox := some false, removeButton := true }).enabled =
        some b) ∧
    (serializeItem
        { linkType := "custom", linkName := "Y", linkUrl := "/y", linkId := none,
          originalIndex := none, checkbox := none, removeButton := true }).enabled =
      some true ∧
    compatEntry (serializeItem
        { linkType := "custom", linkName := "X", linkUrl := "/x", linkId := none,
          originalIndex := none, checkbox := some false, removeButton := true }) =
      serializeItem
        { linkType := "custom", linkName := "X", linkUrl := "/x", linkId := none,
          originalIndex := none, checkbox := some false, removeButton := true } :=
  ⟨(C10_saved_entries_always_have_enabled
      [{ linkType := "custom", linkName := "X", linkUrl := "/x", linkId := none,
         originalIndex := none, checkbox := some false, removeButton := true }]).1
      (serializeItem
        { linkType := "custom", linkName := "X", linkUrl := "/x", linkId := none,
          originalIndex := none, checkbox := some false, removeButton := true }) (by decide),
   (C10_saved_entries_always_have_enabled []).2.1
      { linkType := "custom", linkName := "Y", linkUrl := "/y", linkId := none,
        originalIndex := none, checkbox := none, removeButton := true } rfl,
   (C10_saved_entries_always_have_enabled []).2.2
      { linkType := "custom", linkName := "X", linkUrl := "/x", linkId := none,
        originalIndex := none, checkbox := some false, removeButton := true }⟩
